import Mathlib

/-!
Verification development for the shared-modules repository: a shallow
embedding of the primary/replica routing session (`db.py`), the JWT claim
validation and authorization resolver (`dependency.py`), the Redis cache
manager read path (`cacheManager.py`) and the API permission gate
(`utils/api_permission.py`, `constant.py`), together with theorems settling
the behavioural claims about them.
-/

/-! ## Common: HTTP errors -/

/-- An HTTP-level failure (FastAPI `HTTPException`): status code and detail
string. Header fields are not modelled. -/
structure HTTPError where
  status : Nat
  detail : String
deriving DecidableEq, Repr

/-! ## Routing session (`db.py`, `RoutingAsyncSession`) -/

/-- Kinds of SQLAlchemy statements the routing session dispatches on
(`Select`, `Insert`, `Update`, `Delete`). -/
inductive Stmt where
  | select
  | insert
  | update
  | delete
deriving DecidableEq, Repr

/-- `isinstance(statement, Select)`. -/
def Stmt.isSelect : Stmt → Bool
  | .select => true
  | _ => false

/-- `isinstance(statement, (Insert, Update, Delete))`. -/
def Stmt.isWrite : Stmt → Bool
  | .insert => true
  | .update => true
  | .delete => true
  | _ => false

/-- Outcome of one call to a backing database connection: success,
`OperationalError`, or any other exception. -/
inductive DBOutcome where
  | ok
  | opError
  | otherError
deriving DecidableEq, Repr

/-- Which backing connection served a statement. -/
inductive Backend where
  | replica
  | primary
deriving DecidableEq, Repr

/-- An exception escaping `execute` (either an `OperationalError` or some
other exception; tenacity retries both). -/
inductive ExecErr where
  | operational
  | other
deriving DecidableEq, Repr

/-- Behaviour of the two backing stores: the outcome of the n-th call made
to the replica connection, and of the n-th call made to the primary
connection. -/
structure DBEnv where
  replica : Nat → DBOutcome
  primary : Nat → DBOutcome

/-- The observable state of a `RoutingAsyncSession`: the
read-after-write flag `_use_primary_next` and how many calls this session
has issued to each backing connection (instrumentation counters). -/
structure RoutingAsyncSession where
  use_primary_next : Bool
  replicaCalls : Nat
  primaryCalls : Nat
deriving DecidableEq, Repr

/-- A fresh routing session (`_use_primary_next = False`, no calls yet). -/
def initSession : RoutingAsyncSession := ⟨false, 0, 0⟩

/-- Issue one call to the replica connection. -/
def callReplica (env : DBEnv) (s : RoutingAsyncSession) :
    DBOutcome × RoutingAsyncSession :=
  (env.replica s.replicaCalls, { s with replicaCalls := s.replicaCalls + 1 })

/-- Issue one call to the primary connection. -/
def callPrimary (env : DBEnv) (s : RoutingAsyncSession) :
    DBOutcome × RoutingAsyncSession :=
  (env.primary s.primaryCalls, { s with primaryCalls := s.primaryCalls + 1 })

/-- One un-retried run of the body of `RoutingAsyncSession.execute`
(db.py lines 89-105): a SELECT with the flag clear goes to the replica;
anything else goes to the primary, and a successful write sets
`_use_primary_next`. An `OperationalError` raised inside the `try` block is
caught and the statement is re-executed on the primary; note that this
fallback path does not set `_use_primary_next` even for writes. Exceptions
from the fallback itself propagate. -/
def executeOnce (env : DBEnv) (stmt : Stmt) (s : RoutingAsyncSession) :
    Except ExecErr Backend × RoutingAsyncSession :=
  if stmt.isSelect && !s.use_primary_next then
    let (out, s1) := callReplica env s
    match out with
    | .ok => (Except.ok .replica, s1)
    | .otherError => (Except.error .other, s1)
    | .opError =>
      let (out2, s2) := callPrimary env s1
      match out2 with
      | .ok => (Except.ok .primary, s2)
      | .opError => (Except.error .operational, s2)
      | .otherError => (Except.error .other, s2)
  else
    let (out, s1) := callPrimary env s
    match out with
    | .ok =>
      (Except.ok .primary,
        if stmt.isWrite then { s1 with use_primary_next := true } else s1)
    | .otherError => (Except.error .other, s1)
    | .opError =>
      let (out2, s2) := callPrimary env s1
      match out2 with
      | .ok => (Except.ok .primary, s2)
      | .opError => (Except.error .operational, s2)
      | .otherError => (Except.error .other, s2)

/-- The tenacity `@retry` loop: run the body; on any exception, retry, with
`retries` further attempts allowed; the last attempt's exception surfaces
(tenacity's `stop_after_attempt`). The fixed 1-second backoff is not
modelled (no time in the model). -/
def executeAttempts (env : DBEnv) (stmt : Stmt) :
    Nat → RoutingAsyncSession → Except ExecErr Backend × RoutingAsyncSession
  | 0, s => executeOnce env stmt s
  | retries + 1, s =>
    match executeOnce env stmt s with
    | (Except.ok b, s') => (Except.ok b, s')
    | (Except.error _, s') => executeAttempts env stmt retries s'

/-- `RoutingAsyncSession.execute` with its decorator
`@retry(stop=stop_after_attempt(3), wait=wait_fixed(1))`: three attempts in
total. -/
def RoutingAsyncSession.execute (env : DBEnv) (stmt : Stmt)
    (s : RoutingAsyncSession) :
    Except ExecErr Backend × RoutingAsyncSession :=
  executeAttempts env stmt 2 s

/-- `RoutingAsyncSession.commit` (db.py lines 107-110): commits the primary
only and clears `_use_primary_next`. -/
def RoutingAsyncSession.commit (s : RoutingAsyncSession) :
    RoutingAsyncSession :=
  { s with use_primary_next := false }

/-- Modelled from the claim's words, for refinement comparison with
`RoutingAsyncSession.execute` (not from the source): on a read, the same
read is retried against the replica, up to 3 attempts, and only when all
replica attempts fail with an operational error is it served from the
primary. -/
def claimedReadAux (env : DBEnv) :
    Nat → RoutingAsyncSession → Except ExecErr Backend × RoutingAsyncSession
  | 0, s =>
    let (out, s1) := callPrimary env s
    match out with
    | .ok => (Except.ok .primary, s1)
    | .opError => (Except.error .operational, s1)
    | .otherError => (Except.error .other, s1)
  | n + 1, s =>
    let (out, s1) := callReplica env s
    match out with
    | .ok => (Except.ok .replica, s1)
    | .opError => claimedReadAux env n s1
    | .otherError => (Except.error .other, s1)

/-- Modelled from the claim's words (see `claimedReadAux`): replica retried
up to 3 times, then the primary serves the read. -/
def claimedReadExec (env : DBEnv) (s : RoutingAsyncSession) :
    Except ExecErr Backend × RoutingAsyncSession :=
  claimedReadAux env 3 s

/-- Environment for the C1 counterexample: the replica fails with an
operational error on its first call and succeeds afterwards; the primary
always succeeds. -/
def envA : DBEnv :=
  { replica := fun n => if n = 0 then DBOutcome.opError else DBOutcome.ok,
    primary := fun _ => DBOutcome.ok }

/-- C1 (counterexample): with a replica that fails operationally once and
would succeed on a retry, and a healthy primary, the code serves the read
from the primary after a single replica call — it never retries the read
against the replica, while the claimed behaviour would retry the replica
and serve the read from it. The claim as stated is false on this input. -/
theorem C1_counterexample :
    RoutingAsyncSession.execute envA Stmt.select initSession =
      (Except.ok Backend.primary, ⟨false, 1, 1⟩) ∧
    claimedReadExec envA initSession =
      (Except.ok Backend.replica, ⟨false, 2, 0⟩) ∧
    RoutingAsyncSession.execute envA Stmt.select initSession ≠
      claimedReadExec envA initSession := by
  refine ⟨rfl, rfl, ?_⟩
  intro hcon
  have h1 : (RoutingAsyncSession.execute envA Stmt.select initSession).1 =
      Except.ok Backend.primary := rfl
  have h2 : (claimedReadExec envA initSession).1 =
      Except.ok Backend.replica := rfl
  rw [hcon, h2] at h1
  simp at h1

/-- C1 (amended): on a read routed to the replica, a replica operational
error makes the very same attempt fall back to the primary immediately (one
replica call, one primary call, no replica retries), and when that primary
call succeeds the error is not surfaced to the caller. -/
theorem C1_amended (env : DBEnv) (s : RoutingAsyncSession)
    (hflag : s.use_primary_next = false)
    (hrep : env.replica s.replicaCalls = DBOutcome.opError)
    (hprim : env.primary s.primaryCalls = DBOutcome.ok) :
    RoutingAsyncSession.execute env Stmt.select s =
      (Except.ok Backend.primary,
        { s with replicaCalls := s.replicaCalls + 1,
                 primaryCalls := s.primaryCalls + 1 }) := by
  simp [RoutingAsyncSession.execute, executeAttempts, executeOnce,
    callReplica, callPrimary, Stmt.isSelect, hflag, hrep, hprim]

/-- Witness for `C1_amended` at the concrete environment `envA`. -/
theorem C1_amended_witness :
    RoutingAsyncSession.execute envA Stmt.select initSession =
      (Except.ok Backend.primary,
        { initSession with replicaCalls := 0 + 1, primaryCalls := 0 + 1 }) :=
  C1_amended envA initSession rfl rfl rfl

/-- Environment for the C2 failing input: the primary raises an operational
error on its first call and succeeds afterwards; the replica is healthy. -/
def envC2 : DBEnv :=
  { replica := fun _ => DBOutcome.ok,
    primary := fun n => if n = 0 then DBOutcome.opError else DBOutcome.ok }

/-- C2 (code bug): an INSERT whose first primary call raises an operational
error completes successfully through the fallback path, but that path never
sets `_use_primary_next`; the very next read on the same session (before
any commit) is then served from the replica, contradicting the session's
own documented read-after-write consistency guarantee. -/
theorem C2_code_bug :
    (RoutingAsyncSession.execute envC2 Stmt.insert initSession).1 =
      Except.ok Backend.primary ∧
    (RoutingAsyncSession.execute envC2 Stmt.insert initSession).2.use_primary_next
      = false ∧
    (RoutingAsyncSession.execute envC2 Stmt.select
        (RoutingAsyncSession.execute envC2 Stmt.insert initSession).2).1 =
      Except.ok Backend.replica :=
  ⟨rfl, rfl, rfl⟩

/-! ## Python values (payloads, cached bundles) -/

/-- A fragment of Python's dynamic values, sufficient for the JWT payload
and the cached privilege bundle: `None`, strings, integers (numeric claim
values; floats are not modelled), booleans, lists and string-keyed dicts. -/
inductive PyVal where
  | pnone
  | str (s : String)
  | int (n : Int)
  | bool (b : Bool)
  | list (xs : List PyVal)
  | dict (entries : List (String × PyVal))

/-- Python `d.get(k)` on a dict represented as an ordered association list
(first matching key wins; real dicts have unique keys). -/
def dictGet (d : List (String × PyVal)) (k : String) : Option PyVal :=
  match d with
  | [] => none
  | (k', v) :: rest => if k' = k then some v else dictGet rest k

/-- Python `d[k] = v`: update in place, preserving insertion order, or
append when the key is new. -/
def dictSet (d : List (String × PyVal)) (k : String) (v : PyVal) :
    List (String × PyVal) :=
  match d with
  | [] => [(k, v)]
  | (k', v') :: rest =>
    if k' = k then (k, v) :: rest else (k', v') :: dictSet rest k v

/-- Setting one key leaves lookups of other keys unchanged. -/
theorem dictGet_dictSet_ne (d : List (String × PyVal)) (k k' : String)
    (v : PyVal) (h : k ≠ k') : dictGet (dictSet d k v) k' = dictGet d k' := by
  induction d with
  | nil => simp [dictGet, dictSet, h]
  | cons hd tl ih =>
    obtain ⟨k0, v0⟩ := hd
    by_cases hk : k0 = k
    · subst hk
      simp [dictGet, dictSet, h]
    · simp [dictGet, dictSet, hk]
      by_cases hk' : k0 = k'
      · simp [hk']
      · simp [hk', ih]

/-- Python truthiness for the modelled values (`if not cached_data`). -/
def truthy : PyVal → Bool
  | PyVal.pnone => false
  | PyVal.str s => s ≠ ""
  | PyVal.int n => n ≠ 0
  | PyVal.bool b => b
  | PyVal.list xs => !xs.isEmpty
  | PyVal.dict es => !es.isEmpty

/-- Python `str()`/f-string rendering of the modelled values. Strings render
as themselves (the only case the claims exercise); the renderings of
containers approximate Python's `repr`. -/
def pyStr : PyVal → String
  | PyVal.pnone => "None"
  | PyVal.str s => s
  | PyVal.int n => toString n
  | PyVal.bool b => if b then "True" else "False"
  | PyVal.list _ => "<list>"
  | PyVal.dict _ => "<dict>"

/-! ## UUID parsing (Python `uuid.UUID(s)` / `str(UUID(s))`) -/

/-- Hexadecimal digit test. -/
def isHexDigitChar (c : Char) : Bool :=
  c.isDigit || ('a' ≤ c && c ≤ 'f') || ('A' ≤ c && c ≤ 'F')

/-- `str.strip('{}')`: drop leading and trailing brace characters. -/
def pyStripBraces (cs : List Char) : List Char :=
  ((cs.dropWhile (fun c => c = '{' || c = '}')).reverse.dropWhile
    (fun c => c = '{' || c = '}')).reverse

/-- Models Python `str(uuid.UUID(s))`: strip surrounding braces, drop
dashes, require exactly 32 hexadecimal digits, and render in canonical
lowercase 8-4-4-4-12 form. (The `urn:uuid:` prefix form accepted by the
stdlib is not modelled; no input in this development uses it.) Returns
`none` where Python raises `ValueError`. -/
def uuidParse (s : String) : Option String :=
  let cs := (pyStripBraces s.data).filter (fun c => c ≠ '-')
  if cs.length = 32 && cs.all isHexDigitChar then
    let l := cs.map Char.toLower
    some (String.mk (l.take 8) ++ "-" ++ String.mk ((l.drop 8).take 4) ++ "-" ++
      String.mk ((l.drop 12).take 4) ++ "-" ++ String.mk ((l.drop 16).take 4) ++
      "-" ++ String.mk (l.drop 20))
  else none

/-! ## Token claim validation (`dependency.py`, lines 38-61) -/

/-- Exceptions escaping the body of `get_current_user`: an
`HTTPException`, a `RedisError`, or any other exception (mapped by the
outer handlers to 503 and 500 respectively). -/
inductive Exc where
  | http (e : HTTPError)
  | redis
  | other

/-- `isinstance(payload.get(field), str)`. -/
def isStrVal : Option PyVal → Bool
  | some (PyVal.str _) => true
  | _ => false

/-- `isinstance(payload.get(field), (int, float))` (floats not modelled). -/
def isNumVal : Option PyVal → Bool
  | some (PyVal.int _) => true
  | _ => false

/-- The `missing_fields` comprehension over
`required_fields = {"sub": str, "user_id": str, "tenant_id": str, "exp": (int, float)}`,
in the dict's insertion order. -/
def missingFields (payload : List (String × PyVal)) : List String :=
  (if isStrVal (dictGet payload "sub") then [] else ["sub"]) ++
  (if isStrVal (dictGet payload "user_id") then [] else ["user_id"]) ++
  (if isStrVal (dictGet payload "tenant_id") then [] else ["tenant_id"]) ++
  (if isNumVal (dictGet payload "exp") then [] else ["exp"])

/-- The body of the `for field in ("user_id", "tenant_id")` loop for one
field: skip the UUID parse when the value equals the literal `'None'`,
otherwise normalize via `str(UUID(...))`, turning a `ValueError` into a
401 naming the field. A non-string or missing value here would raise a
`TypeError`/`KeyError` (not caught by `except ValueError`); that branch is
unreachable after the type check. -/
def normalizeUuidField (p : List (String × PyVal)) (field : String) :
    Except Exc (List (String × PyVal)) :=
  match dictGet p field with
  | some (PyVal.str s) =>
    if s = "None" then Except.ok p
    else
      match uuidParse s with
      | some canon => Except.ok (dictSet p field (PyVal.str canon))
      | none =>
        Except.error (Exc.http ⟨401, "Invalid " ++ field ++ " format"⟩)
  | _ => Except.error Exc.other

/-- Claim validation after a successful signature decode
(`dependency.py` lines 40-61): required-field presence/type check, expiry
re-check against the current time, then UUID normalization of `user_id`
and `tenant_id` (each exempted when equal to `'None'`). -/
def validateClaims (payload : List (String × PyVal)) (now : Int) :
    Except Exc (List (String × PyVal)) :=
  let missing := missingFields payload
  if missing.isEmpty = false then
    Except.error (Exc.http
      ⟨401, "Invalid token: missing or invalid " ++
        String.intercalate ", " missing⟩)
  else
    match dictGet payload "exp" with
    | some (PyVal.int e) =>
      if e < now then Except.error (Exc.http ⟨401, "Token has expired"⟩)
      else
        match normalizeUuidField payload "user_id" with
        | Except.error err => Except.error err
        | Except.ok p1 =>
          match normalizeUuidField p1 "tenant_id" with
          | Except.error err => Except.error err
          | Except.ok p2 => Except.ok p2
    | _ => Except.error Exc.other

/-- Concrete payload for the C3 counterexample: a well-typed, unexpired
token whose `user_id` is the literal string `"None"` (not a parseable
UUID) and whose `tenant_id` is a valid UUID. -/
def payloadC3 : List (String × PyVal) :=
  [("sub", PyVal.str "a@b.c"), ("user_id", PyVal.str "None"),
   ("tenant_id", PyVal.str "123e4567-e89b-12d3-a456-426614174000"),
   ("exp", PyVal.int 2000000000)]

/-- C3 (counterexample): `"None"` does not parse as a UUID, yet claim
validation accepts a token whose `user_id` equals `"None"` — the code
exempts `user_id` from UUID parsing exactly as it exempts `tenant_id`, so
the claim that only `tenant_id` enjoys the sentinel exemption is false on
this input. -/
theorem C3_counterexample :
    uuidParse "None" = none ∧
    validateClaims payloadC3 1000000000 = Except.ok payloadC3 :=
  ⟨rfl, rfl⟩

/-- C3 (amended): for a well-typed, unexpired payload, a `user_id` that is
neither the sentinel `"None"` nor a parseable UUID fails with 401 naming
`user_id`; given `user_id` passes (sentinel or parseable), a `tenant_id`
that is neither `"None"` nor parseable fails with 401 naming `tenant_id`;
and both fields — not only `tenant_id` — are exempt from UUID parsing when
equal to `"None"`. -/
theorem C3_amended (payload : List (String × PyVal)) (sb uid tid : String)
    (e now : Int)
    (hsub : dictGet payload "sub" = some (PyVal.str sb))
    (huid : dictGet payload "user_id" = some (PyVal.str uid))
    (htid : dictGet payload "tenant_id" = some (PyVal.str tid))
    (hexp : dictGet payload "exp" = some (PyVal.int e))
    (hfresh : ¬ e < now) :
    (uid ≠ "None" → uuidParse uid = none →
      validateClaims payload now =
        Except.error (Exc.http ⟨401, "Invalid user_id format"⟩)) ∧
    (uid = "None" → tid ≠ "None" → uuidParse tid = none →
      validateClaims payload now =
        Except.error (Exc.http ⟨401, "Invalid tenant_id format"⟩)) ∧
    (uid = "None" → tid = "None" →
      validateClaims payload now = Except.ok payload) := by
  have hmiss : missingFields payload = [] := by
    simp [missingFields, hsub, huid, htid, hexp, isStrVal, isNumVal]
  refine ⟨?_, ?_, ?_⟩
  · intro hne hparse
    simp [validateClaims, hmiss, hexp, hfresh, normalizeUuidField, huid,
      hne, hparse]
  · intro heq hne hparse
    simp [validateClaims, hmiss, hexp, hfresh, normalizeUuidField, huid,
      htid, heq, hne, hparse]
  · intro hequ heqt
    simp [validateClaims, hmiss, hexp, hfresh, normalizeUuidField, huid,
      htid, hequ, heqt]

/-- Witness payload for `C3_amended`: `user_id` is an unparseable
non-sentinel string. -/
def payloadC3w : List (String × PyVal) :=
  [("sub", PyVal.str "a@b.c"), ("user_id", PyVal.str "xyz"),
   ("tenant_id", PyVal.str "None"), ("exp", PyVal.int 10)]

/-- Witness for `C3_amended` at the concrete payload `payloadC3w`. -/
theorem C3_amended_witness :
    ("xyz" ≠ "None" → uuidParse "xyz" = none →
      validateClaims payloadC3w 0 =
        Except.error (Exc.http ⟨401, "Invalid user_id format"⟩)) ∧
    ("xyz" = "None" → "None" ≠ "None" → uuidParse "None" = none →
      validateClaims payloadC3w 0 =
        Except.error (Exc.http ⟨401, "Invalid tenant_id format"⟩)) ∧
    ("xyz" = "None" → "None" = "None" →
      validateClaims payloadC3w 0 = Except.ok payloadC3w) :=
  C3_amended payloadC3w "a@b.c" "xyz" "None" 10 0 rfl rfl rfl rfl (by decide)

/-! ## Privilege flattening (`dependency.py` lines 116-118) -/

/-- The privilege-flattening comprehension: iterate the `privileges` dict in
stored order; a list-valued entry contributes one `"resource:privilege"`
string per element in list order, any other value contributes a single
entry. -/
def flattenPrivileges (privileges : List (String × PyVal)) : List String :=
  privileges.flatMap (fun rp =>
    (match rp.2 with
     | PyVal.list xs => xs
     | v => [v]).map (fun privilege => rp.1 ++ ":" ++ pyStr privilege))

/-! ## Cache manager read path (`cacheManager.py`) -/

/-- Response of the Redis client to a GET: a stored raw string, a missing
key, or a raised `RedisError`. -/
inductive RedisOutcome where
  | value (raw : String)
  | nil
  | redisError

/-- `CacheManager._deserialize_value`: try to parse the raw string as JSON
(the JSON codec is an external collaborator, supplied as `jsonParse`);
on failure return the raw string itself. The pickle fallback is not
modelled: the privilege-cache writers store JSON. -/
def deserializeValue (jsonParse : String → Option PyVal) (raw : String) :
    PyVal :=
  match jsonParse raw with
  | some v => v
  | none => PyVal.str raw

/-- `CacheManager.get` (cacheManager.py lines 76-91): a missing key yields
`None`; a present value is decoded and deserialized; a `RedisError` raised
by the client is caught inside `get`, logged, and `None` is returned — the
error never propagates to the caller. -/
def cacheManagerGet (r : RedisOutcome)
    (jsonParse : String → Option PyVal) : Option PyVal :=
  match r with
  | RedisOutcome.value raw => some (deserializeValue jsonParse raw)
  | RedisOutcome.nil => none
  | RedisOutcome.redisError => none

/-! ## Authorization resolver (`dependency.py`, `get_current_user`) -/

/-- Failure modes of `jwt.decode`. -/
inductive JwtErr where
  | expiredSignature
  | jwtError

/-- The environment of one `get_current_user` call: the outcome of
`jwt.decode` on the presented token, the current time, the result of the
active-session lookup (`select(Session).where(access_token == token,
deleted_at is None)` on the routing db), whether a `TenantUser` row with
`is_admin=true` exists for the token's user, the Redis client's response
for the privilege cache key, and the external JSON codec. -/
structure ResolveEnv where
  decodeRes : Except JwtErr (List (String × PyVal))
  now : Int
  sessionFound : Bool
  adminRowExists : Bool
  redisOutcome : RedisOutcome
  jsonParse : String → Option PyVal

/-- `payload["tenant_id"] == 'None'` (line 80): a string compares by value,
any other value compares unequal to the string literal. -/
def isSuperAdminVal : PyVal → Bool
  | PyVal.str t => t = "None"
  | _ => false

/-- The super-admin corroboration (lines 82-87): only when the token is
super-admin, evaluate `UUID(payload["user_id"])` (a `ValueError` or
`TypeError` here propagates as a generic exception) and require an
`is_admin=true` membership row, else 403. -/
def superAdminGate (adminRowExists : Bool) (tenantV userV : PyVal) :
    Except Exc Unit :=
  if isSuperAdminVal tenantV then
    match userV with
    | PyVal.str u =>
      match uuidParse u with
      | none => Except.error Exc.other
      | some _ =>
        if adminRowExists then Except.ok ()
        else Except.error (Exc.http ⟨403, "User is not a super admin"⟩)
    | _ => Except.error Exc.other
  else Except.ok ()

/-- The normalized user data assembled by the resolver
(`schemas.common.UserData`). -/
structure UserData where
  email : String
  user_id : String
  tenant_id : String
  name : Option String
  status : String
  user_details : List (String × PyVal)
  privileges : List String

/-- The response envelope (`schemas.common.UserResponse`). -/
structure UserResponse where
  users : List UserData
  message : Option String

/-- Pydantic validation of `UserData(**user_data)` (lines 130-131):
`email`, `user_id`, `tenant_id`, `status` must be strings, `name` must be
a string or `None`/absent; any other shape raises a validation error.
(Pydantic's numeric-to-string coercion is not modelled; no claim depends
on it.) -/
def mkUserData (emailV useridV tenantV : PyVal) (nameV : Option PyVal)
    (statusV : PyVal) (ud : List (String × PyVal)) (privs : List String) :
    Option UserData :=
  match emailV, useridV, tenantV, statusV with
  | PyVal.str e, PyVal.str ui, PyVal.str ti, PyVal.str st =>
    match nameV with
    | none => some ⟨e, ui, ti, none, st, ud, privs⟩
    | some PyVal.pnone => some ⟨e, ui, ti, none, st, ud, privs⟩
    | some (PyVal.str n) => some ⟨e, ui, ti, some n, st, ud, privs⟩
    | some _ => none
  | _, _, _, _ => none

/-- Lines 110-135: the active-status check on the cached user, privilege
flattening, assembly of `user_data` (cached values first, claim-derived
fallbacks, `tenant_id` forced to `"None"` for super-admin) and the
envelope construction with its no-privileges message. -/
def statusAndAssemble (isSuper : Bool)
    (payload entries ud : List (String × PyVal)) (tenantV userV : PyVal) :
    Except Exc UserResponse :=
  match dictGet ud "status" with
  | some (PyVal.str st) =>
    if st = "active" then
      match (dictGet entries "privileges").getD (PyVal.dict []) with
      | PyVal.dict pentries =>
        match dictGet payload "sub" with
        | none => Except.error Exc.other
        | some subV =>
          match mkUserData ((dictGet ud "email").getD subV)
              ((dictGet ud "user_id").getD userV)
              (if isSuper then PyVal.str "None"
               else (dictGet ud "tenant_id").getD tenantV)
              (dictGet ud "name")
              ((dictGet ud "status").getD (PyVal.str "active"))
              ud (flattenPrivileges pentries) with
          | none =>
            Except.error (Exc.http ⟨500, "Failed to validate user data"⟩)
          | some u =>
            Except.ok
              { users := [u],
                message :=
                  if (flattenPrivileges pentries).isEmpty then
                    some "No privileges assigned to user"
                  else none }
      | _ => Except.error Exc.other
    else Except.error (Exc.http ⟨403, "User account is not active"⟩)
  | _ => Except.error (Exc.http ⟨403, "User account is not active"⟩)

/-- Lines 104-108: the cached value must be a dict containing a `user` key
(else 500 "Invalid cached data structure"); accessing attributes of a
non-dict `user` value raises a generic exception. -/
def handleCached (isSuper : Bool) (payload : List (String × PyVal))
    (cached : PyVal) (tenantV userV : PyVal) : Except Exc UserResponse :=
  match cached with
  | PyVal.dict entries =>
    match dictGet entries "user" with
    | none => Except.error (Exc.http ⟨500, "Invalid cached data structure"⟩)
    | some (PyVal.dict ud) =>
      statusAndAssemble isSuper payload entries ud tenantV userV
    | some _ => Except.error Exc.other
  | _ => Except.error (Exc.http ⟨500, "Invalid cached data structure"⟩)

/-- `get_current_user` after claim validation (lines 70-135): the
active-session check, the super-admin gate, the cache lookup with its
falsy-miss 401, JSON re-parse of string-valued cache entries, and the
cached-bundle handling. The cache key built on line 79 indexes the store;
`env.redisOutcome` stands for the store's response at that key (a missing
`tenant_id`/`user_id` would raise a `KeyError` there). -/
def resolveAfterValidation (env : ResolveEnv)
    (payload : List (String × PyVal)) : Except Exc UserResponse :=
  if env.sessionFound = false then
    Except.error (Exc.http ⟨401, "Session not found or logged out"⟩)
  else
    match dictGet payload "tenant_id", dictGet payload "user_id" with
    | some tenantV, some userV =>
      match superAdminGate env.adminRowExists tenantV userV with
      | Except.error e => Except.error e
      | Except.ok _ =>
        match cacheManagerGet env.redisOutcome env.jsonParse with
        | none => Except.error (Exc.http ⟨401, "User not found in cache"⟩)
        | some cd0 =>
          if truthy cd0 = false then
            Except.error (Exc.http ⟨401, "User not found in cache"⟩)
          else
            match cd0 with
            | PyVal.str s =>
              match env.jsonParse s with
              | some v =>
                handleCached (isSuperAdminVal tenantV) payload v tenantV userV
              | none =>
                Except.error (Exc.http ⟨500, "Invalid cached data format"⟩)
            | v =>
              handleCached (isSuperAdminVal tenantV) payload v tenantV userV
    | _, _ => Except.error Exc.other

/-- The body of `get_current_user` (lines 38-135): decode failure mapping,
claim validation, then the post-validation pipeline. -/
def getCurrentUserInner (env : ResolveEnv) : Except Exc UserResponse :=
  match env.decodeRes with
  | Except.error JwtErr.expiredSignature =>
    Except.error (Exc.http ⟨401, "Token has expired"⟩)
  | Except.error JwtErr.jwtError =>
    Except.error (Exc.http ⟨401, "Invalid token"⟩)
  | Except.ok p =>
    match validateClaims p env.now with
    | Except.error e => Except.error e
    | Except.ok payload => resolveAfterValidation env payload

/-- `get_current_user` with its outer handlers (lines 142-152): a
`RedisError` escaping the body becomes 503 "Cache service unavailable", an
`HTTPException` re-raises, and any other exception becomes a 500 (whose
detail embeds the exception text; a fixed prefix here). -/
def getCurrentUser (env : ResolveEnv) : Except HTTPError UserResponse :=
  match getCurrentUserInner env with
  | Except.ok v => Except.ok v
  | Except.error (Exc.http e) => Except.error e
  | Except.error Exc.redis => Except.error ⟨503, "Cache service unavailable"⟩
  | Except.error Exc.other => Except.error ⟨500, "Internal server error"⟩

/-- C5 (amended): for any token that validates with `tenant_id = "None"` and a
well-formed (UUID) `user_id`, an active session, and no `is_admin=true`
membership row, the resolver fails with 403 "User is not a super admin" —
for every cache-store response and JSON codec, since the admin check
precedes the cache lookup. -/
theorem C5_thm (env : ResolveEnv) (p payload : List (String × PyVal))
    (uid : String)
    (hdec : env.decodeRes = Except.ok p)
    (hval : validateClaims p env.now = Except.ok payload)
    (htid : dictGet payload "tenant_id" = some (PyVal.str "None"))
    (huid : dictGet payload "user_id" = some (PyVal.str uid))
    (huuid : (uuidParse uid).isSome = true)
    (hsess : env.sessionFound = true)
    (hadmin : env.adminRowExists = false) :
    getCurrentUser env = Except.error ⟨403, "User is not a super admin"⟩ := by
  obtain ⟨c, hc⟩ := Option.isSome_iff_exists.mp huuid
  simp [getCurrentUser, getCurrentUserInner, hdec, hval,
    resolveAfterValidation, hsess, htid, huid, superAdminGate,
    isSuperAdminVal, hc, hadmin]

/-- Concrete super-admin payload for the C5 witness. -/
def payloadC5 : List (String × PyVal) :=
  [("sub", PyVal.str "root@x.y"),
   ("user_id", PyVal.str "11111111-1111-1111-1111-111111111111"),
   ("tenant_id", PyVal.str "None"), ("exp", PyVal.int 2000)]

/-- Concrete environment for the C5 witness: valid super-admin token,
active session, no admin row; cache state is a miss (any value would do). -/
def envC5 : ResolveEnv :=
  { decodeRes := Except.ok payloadC5, now := 1000, sessionFound := true,
    adminRowExists := false, redisOutcome := RedisOutcome.nil,
    jsonParse := fun _ => none }

/-- Witness for `C5_thm` at concrete input `envC5`. -/
theorem C5_witness :
    getCurrentUser envC5 = Except.error ⟨403, "User is not a super admin"⟩ :=
  C5_thm envC5 payloadC5 payloadC5 "11111111-1111-1111-1111-111111111111"
    rfl rfl rfl rfl rfl rfl rfl

/-- Payload for the C5 counterexample: a well-typed, unexpired super-admin
token whose `user_id` is also the sentinel string `"None"` — which claim
validation accepts (both fields are exempt from UUID parsing at the
sentinel). -/
def payloadC5ce : List (String × PyVal) :=
  [("sub", PyVal.str "root@x.y"), ("user_id", PyVal.str "None"),
   ("tenant_id", PyVal.str "None"), ("exp", PyVal.int 2000)]

/-- Environment for the C5 counterexample: the token validates, the session
lookup passes, and no `is_admin=true` membership row exists. -/
def envC5ce : ResolveEnv :=
  { decodeRes := Except.ok payloadC5ce, now := 1000, sessionFound := true,
    adminRowExists := false, redisOutcome := RedisOutcome.nil,
    jsonParse := fun _ => none }

/-- C5 (counterexample): a token with `tenant_id = "None"` that passes
token validation and the active-session lookup, with no admin membership
row, does NOT always fail with 403 NotSuperAdmin: when `user_id` is also
the sentinel `"None"`, the super-admin branch's `UUID(payload["user_id"])`
raises a `ValueError` which the blanket exception handler surfaces as a
500 — so the claim as stated is false on this input. -/
theorem C5_counterexample :
    validateClaims payloadC5ce 1000 = Except.ok payloadC5ce ∧
    envC5ce.sessionFound = true ∧
    envC5ce.adminRowExists = false ∧
    getCurrentUser envC5ce = Except.error ⟨500, "Internal server error"⟩ ∧
    (⟨500, "Internal server error"⟩ : HTTPError) ≠
      ⟨403, "User is not a super admin"⟩ :=
  ⟨rfl, rfl, rfl, rfl, by decide⟩

/-- C6: for any token that validates, with an active session and a passing
super-admin gate, a cache lookup returning no value makes the resolver fail
with 401 "User not found in cache" — it never builds a user-context. -/
theorem C6_thm (env : ResolveEnv) (p payload : List (String × PyVal))
    (tenantV userV : PyVal)
    (hdec : env.decodeRes = Except.ok p)
    (hval : validateClaims p env.now = Except.ok payload)
    (hsess : env.sessionFound = true)
    (htid : dictGet payload "tenant_id" = some tenantV)
    (huid : dictGet payload "user_id" = some userV)
    (hgate : superAdminGate env.adminRowExists tenantV userV = Except.ok ())
    (hcache : cacheManagerGet env.redisOutcome env.jsonParse = none) :
    getCurrentUser env = Except.error ⟨401, "User not found in cache"⟩ := by
  simp [getCurrentUser, getCurrentUserInner, hdec, hval,
    resolveAfterValidation, hsess, htid, huid, hgate, hcache]

/-- Concrete tenant-scoped payload shared by the C6/C7 witnesses. -/
def payloadT : List (String × PyVal) :=
  [("sub", PyVal.str "u@x.y"),
   ("user_id", PyVal.str "11111111-1111-1111-1111-111111111111"),
   ("tenant_id", PyVal.str "22222222-2222-2222-2222-222222222222"),
   ("exp", PyVal.int 2000)]

/-- Concrete environment for the C6 witness: valid tenant token, active
session, cache key absent. -/
def envC6 : ResolveEnv :=
  { decodeRes := Except.ok payloadT, now := 1000, sessionFound := true,
    adminRowExists := false, redisOutcome := RedisOutcome.nil,
    jsonParse := fun _ => none }

/-- Witness for `C6_thm` at concrete input `envC6`. -/
theorem C6_witness :
    getCurrentUser envC6 = Except.error ⟨401, "User not found in cache"⟩ :=
  C6_thm envC6 payloadT payloadT
    (PyVal.str "22222222-2222-2222-2222-222222222222")
    (PyVal.str "11111111-1111-1111-1111-111111111111")
    rfl rfl rfl rfl rfl rfl rfl

/-- Concrete environment for C7: identical to `envC6` except that the Redis
client raises a `RedisError` on the GET. -/
def envC7 : ResolveEnv :=
  { decodeRes := Except.ok payloadT, now := 1000, sessionFound := true,
    adminRowExists := false, redisOutcome := RedisOutcome.redisError,
    jsonParse := fun _ => none }

/-- C7 (counterexample): when the Redis client raises a transport error
during the privilege-cache GET, the resolver surfaces 401 "User not found
in cache" — not the 503 cache-service-unavailable response the claim
requires. -/
theorem C7_counterexample :
    getCurrentUser envC7 = Except.error ⟨401, "User not found in cache"⟩ ∧
    (⟨401, "User not found in cache"⟩ : HTTPError) ≠
      ⟨503, "Cache service unavailable"⟩ :=
  ⟨rfl, by decide⟩

/-- C7 (amended): a Redis transport error during the privilege-cache lookup
is caught inside `CacheManager.get`, which returns `None`; the resolver
therefore surfaces such a failure as 401 CacheMiss, and the 503
`RedisError` handler is not reached through this path. -/
theorem C7_amended (env : ResolveEnv) (p payload : List (String × PyVal))
    (tenantV userV : PyVal)
    (hdec : env.decodeRes = Except.ok p)
    (hval : validateClaims p env.now = Except.ok payload)
    (hsess : env.sessionFound = true)
    (htid : dictGet payload "tenant_id" = some tenantV)
    (huid : dictGet payload "user_id" = some userV)
    (hgate : superAdminGate env.adminRowExists tenantV userV = Except.ok ())
    (hredis : env.redisOutcome = RedisOutcome.redisError) :
    cacheManagerGet env.redisOutcome env.jsonParse = none ∧
    getCurrentUser env = Except.error ⟨401, "User not found in cache"⟩ := by
  constructor
  · rw [hredis]; rfl
  · simp [getCurrentUser, getCurrentUserInner, hdec, hval,
      resolveAfterValidation, hsess, htid, huid, hgate, hredis,
      cacheManagerGet]

/-- Witness for `C7_amended` at concrete input `envC7`. -/
theorem C7_witness :
    cacheManagerGet envC7.redisOutcome envC7.jsonParse = none ∧
    getCurrentUser envC7 = Except.error ⟨401, "User not found in cache"⟩ :=
  C7_amended envC7 payloadT payloadT
    (PyVal.str "22222222-2222-2222-2222-222222222222")
    (PyVal.str "11111111-1111-1111-1111-111111111111")
    rfl rfl rfl rfl rfl rfl rfl

/-- A successfully validated `UserData` whose status argument is the string
`st` carries `st` as its status and the given details dict. -/
theorem mkUserData_status (a b c : PyVal) (d : Option PyVal) (st : String)
    (ud : List (String × PyVal)) (privs : List String) (u : UserData)
    (h : mkUserData a b c d (PyVal.str st) ud privs = some u) :
    u.status = st ∧ u.user_details = ud := by
  unfold mkUserData at h
  cases a <;> try simp at h
  case str e =>
    cases b <;> try simp at h
    case str ui =>
      cases c <;> try simp at h
      case str ti =>
        cases d with
        | none => simp at h; rw [← h]; exact ⟨rfl, rfl⟩
        | some dv =>
          cases dv <;> try simp at h
          case pnone => rw [← h]; exact ⟨rfl, rfl⟩
          case str n => rw [← h]; exact ⟨rfl, rfl⟩

/-- Inversion of the status check and assembly: a successful envelope holds
exactly one user, whose status is `"active"` and is the value stored in the
cached user-details dict (not the assembly-time default). -/
theorem statusAndAssemble_ok (isSuper : Bool)
    (payload entries ud : List (String × PyVal)) (tenantV userV : PyVal)
    (resp : UserResponse)
    (h : statusAndAssemble isSuper payload entries ud tenantV userV =
      Except.ok resp) :
    ∃ u, resp.users = [u] ∧ u.status = "active" ∧
      dictGet u.user_details "status" = some (PyVal.str "active") := by
  unfold statusAndAssemble at h
  split at h
  · -- the `some (PyVal.str st)` alternative
    rename_i st heq
    split at h
    · -- st = "active"
      rename_i hst
      split at h
      · -- privileges value is a dict
        split at h
        · simp at h
        · -- `sub` present
          split at h
          · simp at h
          · -- UserData validation succeeded
            rename_i u hmk
            have hresp := Except.ok.inj h
            subst hresp
            rw [heq, Option.getD_some] at hmk
            obtain ⟨hus, hud⟩ := mkUserData_status _ _ _ _ st ud _ u hmk
            refine ⟨u, rfl, ?_, ?_⟩
            · rw [hus, hst]
            · rw [hud, heq, hst]
      · simp at h
    · simp at h
  · simp at h

/-- Inversion of the cached-bundle handling: success requires a dict with a
dict-valued `user` entry and flows through `statusAndAssemble`. -/
theorem handleCached_ok (isSuper : Bool) (payload : List (String × PyVal))
    (cached tenantV userV : PyVal) (resp : UserResponse)
    (h : handleCached isSuper payload cached tenantV userV = Except.ok resp) :
    ∃ u, resp.users = [u] ∧ u.status = "active" ∧
      dictGet u.user_details "status" = some (PyVal.str "active") := by
  unfold handleCached at h
  split at h
  · split at h
    · simp at h
    · exact statusAndAssemble_ok _ _ _ _ _ _ _ h
    · simp at h
  · simp at h

/-- Inversion of the post-validation pipeline: any success comes out of
`handleCached`. -/
theorem resolveAfterValidation_ok (env : ResolveEnv)
    (payload : List (String × PyVal)) (resp : UserResponse)
    (h : resolveAfterValidation env payload = Except.ok resp) :
    ∃ u, resp.users = [u] ∧ u.status = "active" ∧
      dictGet u.user_details "status" = some (PyVal.str "active") := by
  unfold resolveAfterValidation at h
  split at h
  · simp at h
  · split at h
    · -- both payload fields present
      split at h
      · simp at h
      · split at h
        · simp at h
        · split at h
          · simp at h
          · split at h
            · -- string-valued cache entry, reparsed as JSON
              split at h
              · exact handleCached_ok _ _ _ _ _ _ h
              · simp at h
            · exact handleCached_ok _ _ _ _ _ _ h
    · simp at h

/-- C10: every envelope the resolver returns successfully contains exactly
one user whose status is the string `"active"`, and that value is the one
stored under `status` in the cached user-details dict — the `"active"`
default used during assembly is never the source of the returned value. -/
theorem C10_thm (env : ResolveEnv) (resp : UserResponse)
    (h : getCurrentUser env = Except.ok resp) :
    ∃ u, resp.users = [u] ∧ u.status = "active" ∧
      dictGet u.user_details "status" = some (PyVal.str "active") := by
  have hin : getCurrentUserInner env = Except.ok resp := by
    unfold getCurrentUser at h
    split at h
    · rename_i v heq
      have h2 := Except.ok.inj h
      rw [heq, h2]
    · simp at h
    · simp at h
    · simp at h
  unfold getCurrentUserInner at hin
  split at hin
  · simp at hin
  · simp at hin
  · split at hin
    · simp at hin
    · rename_i payload hval
      exact resolveAfterValidation_ok env payload resp hin

/-- Cached user-details dict for the C10 witness run. -/
def udOK : List (String × PyVal) :=
  [("email", PyVal.str "u@x.y"),
   ("user_id", PyVal.str "11111111-1111-1111-1111-111111111111"),
   ("tenant_id", PyVal.str "22222222-2222-2222-2222-222222222222"),
   ("name", PyVal.str "U"), ("status", PyVal.str "active")]

/-- Cached privilege bundle for the C10 witness run. -/
def cachedOK : PyVal :=
  PyVal.dict
    [("user", PyVal.dict udOK),
     ("privileges",
       PyVal.dict [("user_management", PyVal.list [PyVal.str "create"])])]

/-- Fully successful resolver environment for the C10 witness: valid tenant
token, active session, cache key present with a well-formed JSON bundle. -/
def envOK : ResolveEnv :=
  { decodeRes := Except.ok payloadT, now := 1000, sessionFound := true,
    adminRowExists := false, redisOutcome := RedisOutcome.value "cached",
    jsonParse := fun s => if s = "cached" then some cachedOK else none }

/-- The envelope `getCurrentUser` returns on `envOK`. -/
def respOK : UserResponse :=
  { users :=
      [{ email := "u@x.y",
         user_id := "11111111-1111-1111-1111-111111111111",
         tenant_id := "22222222-2222-2222-2222-222222222222",
         name := some "U", status := "active", user_details := udOK,
         privileges := ["user_management:create"] }],
    message := none }

/-- Witness for `C10_thm` at the concrete successful run `envOK`. -/
theorem C10_witness :
    ∃ u, respOK.users = [u] ∧ u.status = "active" ∧
      dictGet u.user_details "status" = some (PyVal.str "active") :=
  C10_thm envOK respOK rfl

/-- C8: the flattening step on the round-trip example of the spec, and
order preservation: flattening a concatenation of privilege maps is the
concatenation of the flattenings (resources in stored order, list entries
in list order). -/
theorem C8_thm :
    flattenPrivileges
        [("user_management", PyVal.list [PyVal.str "create", PyVal.str "view"]),
         ("privilege", PyVal.str "assign")] =
      ["user_management:create", "user_management:view", "privilege:assign"] ∧
    (∀ ps qs : List (String × PyVal),
      flattenPrivileges (ps ++ qs) =
        flattenPrivileges ps ++ flattenPrivileges qs) :=
  ⟨rfl, fun _ _ => List.flatMap_append ..⟩

/-! ## Permission gate (`constant.py`, `utils/api_permission.py`) -/

/-- `TenantUserStatus.ACTIVE` (constant.py line 18). -/
def TenantUserStatus.ACTIVE : String := "active"

/-- A `TenantUser` membership row, as the gate and the resolver read it:
its status enum value and admin flag. -/
structure TenantUser where
  status : String
  is_admin : Bool

/-- A permission-table value: a flat list of privilege strings or, for a
few multi-resource APIs, a sub-resource-keyed mapping. -/
inductive PermReq where
  | flat (perms : List String)
  | byResource (entries : List (String × List String))

/-- Association-list lookup for the permission table (`api_name in
API_PERMISSIONS` / `API_PERMISSIONS[api_name]`). -/
def assocGet (d : List (String × PermReq)) (k : String) : Option PermReq :=
  match d with
  | [] => none
  | (k', v) :: rest => if k' = k then some v else assocGet rest k

/-- The static `API_PERMISSIONS` table (constant.py lines 77-144). The
source lists `bulk_status_update` twice with the identical value; a Python
dict keeps a single entry. -/
def API_PERMISSIONS : List (String × PermReq) :=
  [("user_invite", PermReq.flat ["user_management:create"]),
   ("get_users", PermReq.flat ["user_management:view"]),
   ("assign_privilege", PermReq.flat ["privilege:assign"]),
   ("check_templates_exist", PermReq.flat ["user_management:view"]),
   ("create_role", PermReq.flat ["user_management:create"]),
   ("get_privilege", PermReq.flat ["user_management:view"]),
   ("list_resource_privilege", PermReq.flat ["user_management:view"]),
   ("remove_privilege", PermReq.flat ["privilege:revoke"]),
   ("list_user_privilege", PermReq.flat ["user_management:view"]),
   ("bulk_status_update", PermReq.flat ["user_management:edit"]),
   ("list_user_details", PermReq.flat ["user_management:view"]),
   ("update_user", PermReq.flat ["user_management:edit"]),
   ("user_statuses", PermReq.flat ["user_management:view"]),
   ("check_email_exist", PermReq.flat ["user_management:create"]),
   ("user_delete", PermReq.flat ["user_management:delete"]),
   ("bulk_delete", PermReq.flat ["user_management:delete"]),
   ("check_template_name", PermReq.flat ["user_management:view"]),
   ("add_freight_rate", PermReq.flat ["freight_rate:create"]),
   ("update_freight_rate", PermReq.flat ["freight_rate:edit"]),
   ("list_freight_rates", PermReq.flat ["freight_rate:view"]),
   ("get_freight_rate_by_id", PermReq.flat ["freight_rate:view"]),
   ("bulk_freight_rate_status_change",
     PermReq.flat ["freight_rate:enable_disable"]),
   ("add_container_type", PermReq.flat ["freight_rate:create"]),
   ("delete_container_type", PermReq.flat ["freight_rate:delete"]),
   ("list_container_types", PermReq.flat ["freight_rate:view"]),
   ("add_freight_rate_comment", PermReq.flat ["freight_rate:create"]),
   ("list_freight_rate_comments", PermReq.flat ["freight_rate:view"]),
   ("freight_change_history", PermReq.flat ["freight_rate:view"]),
   ("freight_rate_change", PermReq.flat ["freight_rate:view"]),
   ("add_tariff_rate", PermReq.flat ["tariff_rate:create"]),
   ("update_tariff_rate", PermReq.flat ["tariff_rate:edit"]),
   ("list_tariff_rates", PermReq.flat ["tariff_rate:view"]),
   ("get_tariff_rate_by_id", PermReq.flat ["tariff_rate:view"]),
   ("bulk_tariff_rate_status_change",
     PermReq.flat ["tariff_rate:enable_disable"]),
   ("add_tariff_rate_comment", PermReq.flat ["tariff_rate:create"]),
   ("list_tariff_rate_comments", PermReq.flat ["tariff_rate:view"]),
   ("tariff_change_history", PermReq.flat ["tariff_rate:view"]),
   ("tariff_rate_change", PermReq.flat ["tariff_rate:view"]),
   ("upload_to_s3", PermReq.byResource
     [("freight_rate", ["freight_rate:import"]),
      ("tariff_rate", ["tariff_rate:import"])]),
   ("upload_summary_counts", PermReq.byResource
     [("freight_rate", ["freight_rate:view"]),
      ("tariff_rate", ["tariff_rate:view"])]),
   ("get_feature_template", PermReq.byResource
     [("freight_rate", ["freight_rate:view"]),
      ("tariff_rate", ["tariff_rate:view"])]),
   ("list_uploads", PermReq.byResource
     [("freight_rate", ["freight_rate:view"]),
      ("tariff_rate", ["tariff_rate:view"])]),
   ("raise_request", PermReq.flat ["request:create"]),
   ("review_request", PermReq.flat ["request:review"]),
   ("get_request_by_id", PermReq.flat ["request:detailed_view"]),
   ("list_requests", PermReq.flat ["request:view"])]

/-- Iterating `required_permissions` (line 51): a list yields its elements,
a dict yields its keys. -/
def requiredPermissions : PermReq → List String
  | PermReq.flat l => l
  | PermReq.byResource m => m.map Prod.fst

/-- The result of the `TenantUser` membership query in
`check_api_permissions`: whether the query itself succeeded, and the first
row for `(user_id, tenant_id)` if any. -/
structure MembershipQuery where
  ok : Bool
  row : Option TenantUser

/-- An exception raised inside the gate's `try` block. -/
inductive GateExc where
  | httpExc (e : HTTPError)
  | dbExc

/-- The body of the `try` block (api_permission.py lines 30-43): run the
membership query (a transport failure raises); raise the 403
`HTTPException` when no row exists or its status is not
`TenantUserStatus.ACTIVE`. -/
def tenantStatusInner (q : MembershipQuery) : Except GateExc Unit :=
  if q.ok = false then Except.error GateExc.dbExc
  else
    match q.row with
    | none =>
      Except.error (GateExc.httpExc ⟨403, "User is not Active in this tenant"⟩)
    | some r =>
      if r.status ≠ TenantUserStatus.ACTIVE then
        Except.error
          (GateExc.httpExc ⟨403, "User is not Active in this tenant"⟩)
      else Except.ok ()

/-- The tenant-membership gate (lines 29-46): skipped when `tenant_id` is
falsy or the `"None"` sentinel; otherwise the `try` body runs and `except
Exception` converts ANY exception raised inside — including the gate's own
403 `HTTPException` — into a 500 "Internal server error during user status
check". -/
def tenantGate (user_data : UserData) (q : MembershipQuery) :
    Except HTTPError Unit :=
  if user_data.tenant_id ≠ "" ∧ user_data.tenant_id ≠ "None" then
    match tenantStatusInner q with
    | Except.ok _ => Except.ok ()
    | Except.error _ =>
      Except.error ⟨500, "Internal server error during user status check"⟩
  else Except.ok ()

/-- `check_api_permissions` (api_permission.py lines 12-56): unknown API →
400; then the tenant-membership gate; then the missing-permissions check
over the required list, failing 403 naming the API. (The function receives
`current_user['users'][0]`; a structured user datum is never falsy, so the
404 "No User Found" branch for a falsy entry is not reachable here.) -/
def check_api_permissions (api_name : String) (user_data : UserData)
    (q : MembershipQuery) : Except HTTPError Unit :=
  match assocGet API_PERMISSIONS api_name with
  | none =>
    Except.error
      ⟨400, "API '" ++ api_name ++ "' is not defined in permission mapping"⟩
  | some req =>
    match tenantGate user_data q with
    | Except.error e => Except.error e
    | Except.ok _ =>
      let missing := (requiredPermissions req).filter
        (fun perm => !(user_data.privileges.contains perm))
      if missing.isEmpty then Except.ok ()
      else
        Except.error
          ⟨403, "Access denied - You don't have permission for:" ++ api_name⟩

/-- User context for the C4 failing input: tenant-scoped user who holds the
required privilege but whose membership row is missing. -/
def ctxC4 : UserData :=
  { email := "a@b.c", user_id := "11111111-1111-1111-1111-111111111111",
    tenant_id := "22222222-2222-2222-2222-222222222222", name := none,
    status := "active", user_details := [],
    privileges := ["user_management:create"] }

/-- C4 (code bug): with a registered API and a set, non-sentinel tenant, a
missing membership row makes the gate raise its 403 "User is not Active in
this tenant" — but the surrounding `except Exception` catches that very
exception and the call surfaces as a 500 "Internal server error during
user status check", not the claimed 403. -/
theorem C4_code_bug :
    check_api_permissions "user_invite" ctxC4 { ok := true, row := none } =
      Except.error ⟨500, "Internal server error during user status check"⟩ ∧
    tenantStatusInner { ok := true, row := none } =
      Except.error
        (GateExc.httpExc ⟨403, "User is not Active in this tenant"⟩) :=
  ⟨rfl, rfl⟩

/-- C9: whenever the tenant-membership gate does not reject the call (the
tenant is the sentinel or unset, or the live row is active), the permission
gate for `"user_invite"` succeeds exactly when `"user_management:create"`
is among the context's privileges, and its absence fails with 403 naming
the API. -/
theorem C9_thm (user : UserData) (q : MembershipQuery)
    (hgate : user.tenant_id = "None" ∨ user.tenant_id = "" ∨
      (q.ok = true ∧ ∃ r, q.row = some r ∧
        r.status = TenantUserStatus.ACTIVE)) :
    (check_api_permissions "user_invite" user q = Except.ok () ↔
      "user_management:create" ∈ user.privileges) ∧
    ("user_management:create" ∉ user.privileges →
      check_api_permissions "user_invite" user q =
        Except.error
          ⟨403, "Access denied - You don't have permission for:user_invite"⟩) := by
  have hg : tenantGate user q = Except.ok () := by
    rcases hgate with h | h | ⟨hok, r, hrow, hst⟩
    · simp [tenantGate, h]
    · simp [tenantGate, h]
    · by_cases hc : user.tenant_id ≠ "" ∧ user.tenant_id ≠ "None"
      · simp [tenantGate, hc, tenantStatusInner, hok, hrow, hst]
      · simp [tenantGate, hc]
  have hlook : assocGet API_PERMISSIONS "user_invite" =
      some (PermReq.flat ["user_management:create"]) := rfl
  by_cases hmem : "user_management:create" ∈ user.privileges
  · have hres : check_api_permissions "user_invite" user q = Except.ok () := by
      simp [check_api_permissions, hlook, hg, requiredPermissions, hmem]
    exact ⟨by simp [hres, hmem], fun hn => absurd hmem hn⟩
  · have hres : check_api_permissions "user_invite" user q =
        Except.error
          ⟨403, "Access denied - You don't have permission for:user_invite"⟩ := by
      simp [check_api_permissions, hlook, hg, requiredPermissions, hmem]
    refine ⟨?_, fun _ => hres⟩
    constructor
    · intro hok2; rw [hres] at hok2; exact absurd hok2 (by simp)
    · intro hm; exact absurd hm hmem

/-- User context for the C9 witness: sentinel tenant, holding the required
privilege. -/
def ctxC9 : UserData :=
  { email := "a@b.c", user_id := "11111111-1111-1111-1111-111111111111",
    tenant_id := "None", name := none, status := "active",
    user_details := [], privileges := ["user_management:create"] }

/-- Witness for `C9_thm` at the concrete context `ctxC9`. -/
theorem C9_witness :
    (check_api_permissions "user_invite" ctxC9 { ok := true, row := none } =
        Except.ok () ↔
      "user_management:create" ∈ ctxC9.privileges) ∧
    ("user_management:create" ∉ ctxC9.privileges →
      check_api_permissions "user_invite" ctxC9 { ok := true, row := none } =
        Except.error
          ⟨403, "Access denied - You don't have permission for:user_invite"⟩) :=
  C9_thm ctxC9 { ok := true, row := none } (Or.inl rfl)
